import Mathlib

/-!
Verification of the compatibility validation and repair engine of
AudioMetaEditor (`compatibility_checker.py`).

The Python source is shallowly embedded: byte strings become `List Nat`,
the filesystem state touched by a repair call becomes an explicit record
of the target file and its `.bak` sidecar, and the calls into the
`mutagen` tag library and into external tools (`flac`, `ffmpeg`) are
abstracted as environment records of functions from file content to
parse/transcode outcomes, so that every theorem quantifies over all
possible behaviours of those collaborators.  Python exceptions that the
source catches are modelled by `Option`/`Except` values; the one dict
access the source performs without a guard (`integrity_status["md5"]`)
is modelled as a `throw` in an `Except` monad.
-/

namespace AudioMetaEditor

/-- File content: a list of byte values, as read by `open(path, 'rb')`. -/
abbrev Bytes := List Nat

/-! ## Python string and byte-string helpers -/

/-- Python `str.startswith(pre)`. -/
def pyStartsWith (s pre : String) : Bool := pre.toList.isPrefixOf s.toList

/-- Python `str.lower()` (the names this engine lowercases are ASCII). -/
def pyLower (s : String) : String := ⟨s.toList.map Char.toLower⟩

/-- Python slicing `s[:n]` for `0 ≤ n`. -/
def pyTake (s : String) (n : Nat) : String := ⟨s.toList.take n⟩

/-- Replace all non-overlapping occurrences of `needle`, left to right. -/
def replaceL (hay needle repl : List Char) : List Char :=
  match hay with
  | [] => []
  | a :: t =>
    if needle.isPrefixOf (a :: t) ∧ needle ≠ [] then
      repl ++ replaceL ((a :: t).drop needle.length) needle repl
    else a :: replaceL t needle repl
termination_by hay.length
decreasing_by
  · simp only [List.length_drop]
    cases needle with
    | nil => simp_all
    | cons nh nt => simp only [List.length_cons]; omega
  · simp only [List.length_cons]; omega

/-- Python `str.replace(needle, repl)`. -/
def pyReplace (s needle repl : String) : String :=
  ⟨replaceL s.toList needle.toList repl.toList⟩

/-- Python `str.strip()` (default whitespace strip) restricted to the
whitespace characters relevant here. -/
def pyStrip (s : String) : String :=
  ⟨((s.toList.dropWhile Char.isWhitespace).reverse.dropWhile Char.isWhitespace).reverse⟩

/-- Strip the characters of `set` from both ends, Python `str.strip('- ')`. -/
def stripBoth (set : List Char) (l : List Char) : List Char :=
  ((l.dropWhile (· ∈ set)).reverse.dropWhile (· ∈ set)).reverse

/-- Collapse consecutive runs of the character `c` to a single occurrence,
Python `re.sub(r'c+', 'c', s)`. -/
def collapseChar (c : Char) : List Char → List Char
  | [] => []
  | [a] => [a]
  | a :: b :: rest =>
    if a = c ∧ b = c then collapseChar c (b :: rest)
    else a :: collapseChar c (b :: rest)

/-- Python `str.capitalize()`: first character upper-cased, rest lower-cased. -/
def pyCapitalize (s : String) : String :=
  match s.toList with
  | [] => ""
  | c :: cs => ⟨c.toUpper :: cs.map Char.toLower⟩

/-- Python slicing `l[:n]` where `n` may be negative. -/
def pySliceTo (l : List Char) (n : Int) : List Char :=
  if 0 ≤ n then l.take n.toNat else l.take (l.length - (-n).toNat)

/-- Substring containment, Python `needle in hay`. -/
def strContainsL (hay needle : List Char) : Bool :=
  match hay with
  | [] => needle = []
  | _ :: t => needle.isPrefixOf hay || strContainsL t needle

/-- Substring containment on `String`. -/
def strContains (hay needle : String) : Bool :=
  strContainsL hay.toList needle.toList

/-- Little-endian value of a 4-byte string (`struct.unpack('<I', b)[0]`). -/
def le32 (b : Bytes) : Nat :=
  match b with
  | [b0, b1, b2, b3] => b0 + 256 * b1 + 65536 * b2 + 16777216 * b3
  | _ => 0

/-- Little-endian encoding `n.to_bytes(k, byteorder='little')` (the source
only ever encodes values below `2^(8*k)`, where this agrees with Python). -/
def leBytes : Nat → Nat → Bytes
  | 0, _ => []
  | k + 1, n => (n % 256) :: leBytes k (n / 256)

/-- Byte string `b'ID3'`. -/
def bID3 : Bytes := [0x49, 0x44, 0x33]

/-- Byte string `b'fLaC'`. -/
def bfLaC : Bytes := [0x66, 0x4C, 0x61, 0x43]

/-- Byte string `b'RIFF'`. -/
def bRIFF : Bytes := [0x52, 0x49, 0x46, 0x46]

/-- Byte string `b'WAVE'`. -/
def bWAVE : Bytes := [0x57, 0x41, 0x56, 0x45]

/-- Byte string `b'OggS'`. -/
def bOggS : Bytes := [0x4F, 0x67, 0x67, 0x53]

/-! ## POSIX path helpers (`os.path`) -/

/-- Index of the last occurrence of `c` in `l`, if any. -/
def rfindIdx (l : List Char) (c : Char) : Option Nat :=
  match l with
  | [] => none
  | a :: t =>
    match rfindIdx t c with
    | some i => some (i + 1)
    | none => if a = c then some 0 else none

/-- Python `os.path.basename` (POSIX): everything after the last `/`. -/
def pyBasename (p : String) : String :=
  match rfindIdx p.toList '/' with
  | some i => ⟨p.toList.drop (i + 1)⟩
  | none => p

/-- Python `os.path.dirname` (POSIX): the prefix up to the last `/`, with
trailing slashes stripped unless the result is all slashes. -/
def pyDirname (p : String) : String :=
  match rfindIdx p.toList '/' with
  | some i =>
    let head := p.toList.take (i + 1)
    if head ≠ [] ∧ head.any (· ≠ '/') then ⟨head.reverse.dropWhile (· = '/') |>.reverse⟩
    else ⟨head⟩
  | none => ""

/-- Python `os.path.splitext` (POSIX): split at the last dot of the last
component, unless the component consists only of leading dots up to it. -/
def pySplitext (p : String) : String × String :=
  let l := p.toList
  let start := match rfindIdx l '/' with
    | some i => i + 1
    | none => 0
  match rfindIdx l '.' with
  | some d =>
    if start ≤ d ∧ ((l.drop start).take (d - start)).any (· ≠ '.') then
      (⟨l.take d⟩, ⟨l.drop d⟩)
    else (p, "")
  | none => (p, "")

/-! ## Data model -/

/-- Integrity classification (`result["status"]`). -/
inductive Status
  | OK
  | Warning
  | Error
deriving DecidableEq, Repr

/-- Repair strategy selected by the integrity checker
(`result["repair_method"]`). -/
inductive RepairMethod
  | delete_resource_file
  | rebuild_mp3
  | rebuild_flac
  | rebuild_wav
deriving DecidableEq, Repr

/-- The dict returned by `check_file_integrity`.  `md5 = none` models the
absence of the `"md5"` key (the AppleDouble short-circuit return omits it);
`md5 = some s` models a present key with value `s` (possibly the empty
string). -/
structure IntegrityResult where
  status : Status
  issues : List String
  md5 : Option String
  can_repair : Bool
  repair_method : Option RepairMethod
deriving DecidableEq, Repr

/-- Metadata record fields used by the strict profile (all other fields of
the record never influence the checker). -/
structure Metadata where
  title : String
  artist : String
  album : String
deriving DecidableEq, Repr

/-- Field lookup `metadata.get(field, '')` for the three checked fields. -/
def Metadata.getField (m : Metadata) (f : String) : String :=
  if f = "title" then m.title
  else if f = "artist" then m.artist
  else if f = "album" then m.album
  else ""

/-! ## Environment abstracting `mutagen` and `hashlib` for the integrity
checker -/

/-- Outcome of `MP3(file_path)` in `check_file_integrity`: either the
`HeaderNotFoundError` branch, another exception with message `msg`, or a
successful parse with duration (seconds) and bitrate. -/
inductive MP3IntegrityParse
  | headerNotFound
  | err (msg : String)
  | ok (length : Rat) (bitrate : Int)
deriving Repr

/-- Outcome of `FLAC(file_path)` in `check_file_integrity`: the dedicated
`FLACError` branch, another exception, or a parse whose `info` block may be
absent (`hasStreaminfo` is the truthiness of `audio.info`). -/
inductive FLACIntegrityParse
  | flacError
  | err (msg : String)
  | ok (hasStreaminfo : Bool)
deriving Repr

/-- External collaborators of `check_file_integrity`, as functions of the
file content being checked. -/
structure Env where
  md5hex : Bytes → String
  mp3Parse : Bytes → MP3IntegrityParse
  flacParse : Bytes → FLACIntegrityParse

/-! ## `check_file_integrity` -/

/-- The MP3 header test
`not header.startswith(b'ID3') and not (header[0] == 0xFF and (header[1] & 0xE0) == 0xE0)`
with Python's short-circuit evaluation; `error` models the `IndexError`
raised by `header[1]` on a one-byte file whose single byte is `0xFF`
(caught by the surrounding `except Exception`). -/
def mp3HeaderInvalid (content : Bytes) : Except String Bool :=
  let header := content.take 4
  if bID3.isPrefixOf header then .ok false
  else
    match header with
    | [] => .error "index out of range"
    | b0 :: rest =>
      if b0 = 0xFF then
        match rest with
        | [] => .error "index out of range"
        | b1 :: _ => .ok (decide (¬ b1 &&& 0xE0 = 0xE0))
      else .ok true

/-- MP3 branch of `check_file_integrity`: the byte-level header test,
then the `MP3(file_path)` parse with the duration and bitrate sanity
checks (suspicious values overwrite the status with Warning). -/
def mp3IntegrityCheck (env : Env) (md5 : String) (content : Bytes) : IntegrityResult :=
  match mp3HeaderInvalid content with
  | .error e =>
    { status := .Error, issues := ["MP3 parsing error: " ++ e], md5 := some md5,
      can_repair := false, repair_method := none }
  | .ok invalid =>
    let st1 : Status := if invalid then .Error else .OK
    let is1 : List String := if invalid then ["Invalid MP3 header"] else []
    let cr1 : Bool := invalid
    let rm1 : Option RepairMethod := if invalid then some .rebuild_mp3 else none
    match env.mp3Parse content with
    | .headerNotFound =>
      { status := .Error, issues := is1 ++ ["MP3 header not found, file may be corrupted"],
        md5 := some md5, can_repair := true, repair_method := some .rebuild_mp3 }
    | .err e =>
      { status := .Error, issues := is1 ++ ["MP3 parsing error: " ++ e],
        md5 := some md5, can_repair := cr1, repair_method := rm1 }
    | .ok length bitrate =>
      let durSusp := length ≤ 0 ∨ 24 * 60 * 60 < length
      let st2 : Status := if durSusp then .Warning else st1
      let is2 : List String := if durSusp then ["Suspicious track duration"] else []
      let brSusp := bitrate ≤ 0 ∨ 1000000 < bitrate
      let st3 : Status := if brSusp then .Warning else st2
      let is3 : List String := if brSusp then ["Suspicious bitrate value"] else []
      { status := st3, issues := is1 ++ is2 ++ is3, md5 := some md5,
        can_repair := cr1, repair_method := rm1 }

/-- FLAC branch of `check_file_integrity`: the `FLAC(file_path)` parse,
the STREAMINFO presence test, and the `fLaC` signature test. -/
def flacIntegrityCheck (env : Env) (md5 : String) (content : Bytes) : IntegrityResult :=
  match env.flacParse content with
  | .flacError =>
    { status := .Error, issues := ["FLAC parsing error, file may be corrupted"],
      md5 := some md5, can_repair := false, repair_method := none }
  | .err e =>
    { status := .Error, issues := ["FLAC integrity error: " ++ e],
      md5 := some md5, can_repair := false, repair_method := none }
  | .ok hasStreaminfo =>
    let stA : Status := if hasStreaminfo then .OK else .Error
    let isA : List String := if hasStreaminfo then [] else ["Missing STREAMINFO block"]
    if content.take 4 ≠ bfLaC then
      { status := .Error, issues := isA ++ ["Invalid FLAC signature"],
        md5 := some md5, can_repair := true, repair_method := some .rebuild_flac }
    else
      { status := stA, issues := isA, md5 := some md5,
        can_repair := false, repair_method := none }

/-- WAV branch of `check_file_integrity`: the RIFF/WAVE marker test, then
the declared-size comparison with its 100-byte tolerance (a mismatch, or
an unreadable size field, overwrites the status with Warning). -/
def wavIntegrityCheck (md5 : String) (content : Bytes) : IntegrityResult :=
  let riff := content.take 4
  let size := (content.drop 4).take 4
  let wave := (content.drop 8).take 4
  let bad := riff ≠ bRIFF ∨ wave ≠ bWAVE
  let stW : Status := if bad then .Error else .OK
  let isW : List String := if bad then ["Invalid WAV header"] else []
  let crW : Bool := bad
  let rmW : Option RepairMethod := if bad then some .rebuild_wav else none
  if size.length = 4 then
    let expected := le32 size + 8
    if 100 < ((expected : Int) - (content.length : Int)).natAbs then
      { status := .Warning, issues := isW ++ ["WAV file size mismatch"],
        md5 := some md5, can_repair := crW, repair_method := rmW }
    else
      { status := stW, issues := isW, md5 := some md5,
        can_repair := crW, repair_method := rmW }
  else
    { status := .Warning, issues := isW ++ ["Unable to verify WAV file size"],
      md5 := some md5, can_repair := crW, repair_method := rmW }

/-- OGG branch of `check_file_integrity`: signature-only test. -/
def oggIntegrityCheck (md5 : String) (content : Bytes) : IntegrityResult :=
  if content.take 4 ≠ bOggS then
    { status := .Error, issues := ["Invalid OGG signature"], md5 := some md5,
      can_repair := false, repair_method := none }
  else
    { status := .OK, issues := [], md5 := some md5,
      can_repair := false, repair_method := none }

/-- Model of `CompatibilityChecker.check_file_integrity(file_path, file_ext)`.
`basename` is `os.path.basename(file_path)` and `content` the bytes of the
file; filesystem reads are assumed to succeed (the outer
`except IOError` branch of the source handles a failing disk, which the
embedding does not model). -/
def check_file_integrity (env : Env) (basename ext : String) (content : Bytes) :
    IntegrityResult :=
  if pyStartsWith basename "._" then
    { status := .Error, issues := ["macOS resource file"], md5 := none,
      can_repair := true, repair_method := some .delete_resource_file }
  else
    let md5 := env.md5hex content
    if content.length = 0 then
      { status := .Error, issues := ["Zero-byte file detected"], md5 := some md5,
        can_repair := false, repair_method := none }
    else if ext = ".mp3" then mp3IntegrityCheck env md5 content
    else if ext = ".flac" then flacIntegrityCheck env md5 content
    else if ext = ".wav" then wavIntegrityCheck md5 content
    else if ext = ".ogg" then oggIntegrityCheck md5 content
    else
      { status := .OK, issues := [], md5 := some md5,
        can_repair := false, repair_method := none }

/-- Environment used to instantiate witness theorems: all collaborator
calls fail with a generic message and the hash function is constant. -/
def defaultEnv : Env :=
  { md5hex := fun _ => "", mp3Parse := fun _ => .err "unreadable",
    flacParse := fun _ => .err "unreadable" }

/-! ## RepairEngine (`repair_file_integrity` and the `_repair_*` helpers) -/

/-- Filesystem state touched by one repair call: the target file and its
`<path>.bak` sidecar (`none` = the path does not exist on disk). -/
structure FS where
  file : Option Bytes
  bak : Option Bytes
deriving DecidableEq, Repr

/-- Synchsafe 28-bit size from the four size bytes of an ID3v2 header
(`((b0 & 0x7F) << 21) | ((b1 & 0x7F) << 14) | ((b2 & 0x7F) << 7) | (b3 & 0x7F)`). -/
def synchsafe (b : Bytes) : Nat :=
  match b with
  | [b0, b1, b2, b3] =>
    ((b0 &&& 0x7F) <<< 21) ||| ((b1 &&& 0x7F) <<< 14) ||| ((b2 &&& 0x7F) <<< 7) ||| (b3 &&& 0x7F)
  | _ => 0

/-- Scan for the first MP3 frame-sync position at index `pos` or later
(the `while pos < len(data) - 1` loop of `_repair_mp3`). -/
def findFrame (data : Bytes) (pos : Nat) : Option Nat :=
  if h : pos + 1 < data.length then
    if data.getD pos 0 = 0xFF ∧ (data.getD (pos + 1) 0) &&& 0xE0 = 0xE0 then some pos
    else findFrame data (pos + 1)
  else none
termination_by data.length - pos

/-- Content transformation of `_repair_mp3`: skip a leading ID3v2 block
(synchsafe size), find the first frame sync, keep the tag block plus the
stream from the first valid frame; `none` models the
"Could not find MP3 frame start" failure. -/
def repairMp3 (data : Bytes) : Option Bytes :=
  let start_pos :=
    if bID3.isPrefixOf data ∧ 10 < data.length then
      10 + synchsafe ((data.drop 6).take 4)
    else 0
  match findFrame data start_pos with
  | none => none
  | some frame_start => some (data.take start_pos ++ data.drop frame_start)

/-- The canonical 44-byte PCM header written by `_repair_wav` for a file of
`totalLen` bytes. -/
def wavCanonicalHeader (totalLen : Nat) : Bytes :=
  bRIFF ++ leBytes 4 (totalLen - 8) ++ bWAVE
    ++ [0x66, 0x6D, 0x74, 0x20]          -- b'fmt '
    ++ leBytes 4 16                       -- fmt chunk size (PCM)
    ++ leBytes 2 1                        -- audio format: PCM
    ++ leBytes 2 2                        -- channels: stereo
    ++ leBytes 4 44100                    -- sample rate
    ++ leBytes 4 (44100 * 2 * 2)          -- byte rate
    ++ leBytes 2 (2 * 2)                  -- block align
    ++ leBytes 2 16                       -- bits per sample
    ++ [0x64, 0x61, 0x74, 0x61]          -- b'data'
    ++ leBytes 4 (totalLen - 44)          -- data size

/-- Content transformation of `_repair_wav`: prepend the canonical header
to the payload after byte 44; `none` models the
"WAV file too small to repair" failure. -/
def repairWav (data : Bytes) : Option Bytes :=
  if data.length < 44 then none
  else some (wavCanonicalHeader data.length ++ data.drop 44)

/-- External collaborators of `_repair_flac`: the `flac` decode/encode
round trip of Stage 1, the mutagen open-and-save of Stage 2, and the
`ffmpeg` transcode of Stage 3, each as a function of the content they are
applied to (`none` = the tool failed / raised). -/
structure FlacEnv where
  flacDecode : Bytes → Option Bytes
  flacEncode : Bytes → Option Bytes
  mutagenResave : Bytes → Option Bytes
  ffmpegAvailable : Bool
  ffmpegTranscode : Bytes → Option Bytes

/-- Post-stage verification of `_repair_flac`: the repaired content passes
`check_file_integrity` with status OK. -/
def flacStageOK (env : Env) (basename ext : String) (c : Bytes) : Bool :=
  (check_file_integrity env basename ext c).status = .OK

/-- Stage 3 of `_repair_flac` (ffmpeg), entered with the target restored
from backup to `orig`; on overall failure the original is restored and the
`.bak` file is left in place (its removal in the `finally` block is
conditional on `repair_successful`). -/
def repairFlacStage3 (env : Env) (fenv : FlacEnv) (basename ext : String)
    (orig : Bytes) : Bool × FS :=
  let failed : Bool × FS := (false, { file := some orig, bak := some orig })
  if fenv.ffmpegAvailable then
    match fenv.ffmpegTranscode orig with
    | some fixed =>
      if flacStageOK env basename ext fixed then (true, { file := some fixed, bak := none })
      else failed
    | none => failed
  else failed

/-- Stage 2 of `_repair_flac` (mutagen open, force tags, save), entered
with the target restored from backup to `orig`. -/
def repairFlacStage2 (env : Env) (fenv : FlacEnv) (basename ext : String)
    (orig : Bytes) : Bool × FS :=
  match fenv.mutagenResave orig with
  | some saved =>
    if flacStageOK env basename ext saved then (true, { file := some saved, bak := none })
    else repairFlacStage3 env fenv basename ext orig
  | none => repairFlacStage3 env fenv basename ext orig

/-- Model of `_repair_flac`: refuse AppleDouble files, create the `.bak`
backup, then run Stage 1 (flac decode + verified re-encode, replace the
original, re-check integrity) with fallback to Stages 2 and 3; on success
the `finally` block removes the backup, on failure the original is
restored from it. -/
def repairFlacModel (env : Env) (fenv : FlacEnv) (basename ext : String)
    (fs : FS) : Bool × FS :=
  if pyStartsWith basename "._" then (false, fs)
  else
    match fs.file with
    | none => (false, fs)
    | some orig =>
      let stage1 : Option Bytes :=
        match fenv.flacDecode orig with
        | some wav => fenv.flacEncode wav
        | none => none
      match stage1 with
      | some reencoded =>
        if flacStageOK env basename ext reencoded then
          (true, { file := some reencoded, bak := none })
        else repairFlacStage2 env fenv basename ext orig
      | none => repairFlacStage2 env fenv basename ext orig

/-- Outcome dict of `repair_file_integrity` (the repair messages of the
source are abbreviated: no claim inspects them beyond `success`). -/
structure RepairOutcome where
  success : Bool
  message : String
deriving DecidableEq, Repr

/-- Model of `repair_file_integrity(file_path, integrity_result)`:
check `can_repair`, copy the target to `<path>.bak`, dispatch on
`repair_method`, and on failure restore the original from the backup and
delete the backup (on success delete the backup, ignoring a missing one). -/
def repair_file_integrity (env : Env) (fenv : FlacEnv) (basename ext : String)
    (ir : IntegrityResult) (fs : FS) : RepairOutcome × FS :=
  if ¬ ir.can_repair then
    ({ success := false, message := "This issue cannot be automatically repaired" }, fs)
  else
    match fs.file with
    | none =>
      ({ success := false, message := "Failed to create backup: file not found" }, fs)
    | some orig =>
      let fs1 : FS := { file := some orig, bak := some orig }
      let step : RepairOutcome × FS :=
        match ir.repair_method with
        | some .delete_resource_file =>
          ({ success := true, message := "Removed macOS resource file successfully" },
           { fs1 with file := none })
        | some .rebuild_mp3 =>
          match repairMp3 orig with
          | some fixed =>
            ({ success := true, message := "MP3 file structure repaired successfully" },
             { fs1 with file := some fixed })
          | none =>
            ({ success := false, message := "Could not find MP3 frame start" }, fs1)
        | some .rebuild_wav =>
          match repairWav orig with
          | some fixed =>
            ({ success := true, message := "WAV file structure repaired successfully" },
             { fs1 with file := some fixed })
          | none =>
            ({ success := false, message := "WAV file too small to repair" }, fs1)
        | some .rebuild_flac =>
          let r := repairFlacModel env fenv basename ext fs1
          ({ success := r.1,
             message := if r.1 then "FLAC file repaired"
                        else "All repair attempts failed to fix integrity issues." }, r.2)
        | none =>
          ({ success := false, message := "Unknown repair method" }, fs1)
      if step.1.success then (step.1, { step.2 with bak := none })
      else
        match step.2.bak with
        | some b => (step.1, { file := some b, bak := none })
        | none =>
          ({ step.1 with message := step.1.message ++ " (Error restoring backup)" }, step.2)

/-- FlacEnv used to instantiate witness theorems: every external tool
fails and `ffmpeg` is absent. -/
def defaultFlacEnv : FlacEnv :=
  { flacDecode := fun _ => none, flacEncode := fun _ => none,
    mutagenResave := fun _ => none, ffmpegAvailable := false,
    ffmpegTranscode := fun _ => none }

/-! ## PathValidator (`check_path_issues`, `check_directory_path`) -/

/-- The character class `[0-9a-zA-Z\- ]` of the source's `re.match`. -/
def allowedChar (c : Char) : Bool :=
  c.isDigit || ('a' ≤ c ∧ c ≤ 'z') || ('A' ≤ c ∧ c ≤ 'Z') || c = '-' || c = ' '

/-- Abstraction of the `unicodedata` module: `NFKD` normalisation, the
combining-mark test `category(c).startswith('M')`, and the letter test
`category(c).startswith('L')`. -/
structure UEnv where
  nfkd : String → String
  isMark : Char → Bool
  isLetter : Char → Bool

/-- Restriction of `unicodedata` to ASCII inputs: NFKD is the identity,
no ASCII character is a combining mark, and the letter categories are
exactly the ASCII letters. -/
def asciiUEnv : UEnv :=
  { nfkd := id, isMark := fun _ => false, isLetter := Char.isAlpha }

/-- An apostrophe character, used to render the quoted character lists of
the path-validation messages. -/
def squote : String := String.singleton (Char.ofNat 39)

/-- The per-character classification loop of `check_path_issues` /
`check_directory_path`: partition the disallowed characters of `s` into
accented letters and other special characters, in first-occurrence order
without duplicates. -/
def classifyChars (u : UEnv) (s : String) : List Char × List Char :=
  s.toList.foldl
    (fun acc c =>
      if allowedChar c then acc
      else if u.isLetter c then
        if c ∈ acc.1 then acc else (acc.1 ++ [c], acc.2)
      else if c ∈ acc.2 then acc else (acc.1, acc.2 ++ [c]))
    ([], [])

/-- Rendering `', '.join([f"'{c}'" for c in chars])`. -/
def charListString (chars : List Char) : String :=
  String.intercalate ", " (chars.map (fun c => squote ++ String.singleton c ++ squote))

/-- The safe-name construction shared by the file and directory branches:
NFKD-normalise, drop combining marks and disallowed characters, fall back
to `fallback` when the result strips to empty, collapse repeated
spaces/dashes, and strip leading/trailing spaces/dashes (truncation is
applied separately by each caller). -/
def sanitizeStem (u : UEnv) (name fallback : String) : String :=
  let filtered : List Char :=
    (u.nfkd name).toList.filter (fun c => ¬ u.isMark c ∧ allowedChar c)
  let base : List Char :=
    if pyStrip ⟨filtered⟩ = "" then fallback.toList else filtered
  let collapsed := collapseChar '-' (collapseChar ' ' base)
  ⟨stripBoth ['-', ' '] collapsed⟩

/-- Result tuple of `check_path_issues` / `check_directory_path`. -/
structure PathCheck where
  issues : List String
  warnings : List String
  recommendations : List String
  can_rename : Bool
  suggested : Option String
deriving DecidableEq, Repr

/-- Model of `check_path_issues(file_path)`: path-length and
filename-length issues are unconditional; the character classification of
the stem runs only when path validation is enabled; a suggested filename
(sanitised stem, truncated to the length budget with a `'...'` marker,
plus the original extension) is produced whenever renaming applies. -/
def check_path_issues (u : UEnv) (performPathValidation : Bool)
    (file_path : String) : PathCheck :=
  let file_basename := pyBasename file_path
  let se := pySplitext file_basename
  let file_name := se.1
  let file_ext := se.2
  let lenIssues : List String :=
    (if 250 < file_path.length then ["File path exceeds 250 characters"] else [])
      ++ (if 100 < file_basename.length then ["Filename exceeds 100 characters"] else [])
  let lenRecs : List String :=
    (if 250 < file_path.length
     then ["Shorten the file path for better compatibility across systems"] else [])
      ++ (if 100 < file_basename.length then ["Consider shortening the filename"] else [])
  let lenRename : Bool := 100 < file_basename.length
  let cls := if performPathValidation then classifyChars u file_name else ([], [])
  let accented := cls.1
  let invalid := cls.2
  let accWarnings : List String :=
    if accented ≠ [] then
      ["Filename contains accented characters: " ++ charListString accented]
    else []
  let accRecs : List String :=
    if accented ≠ [] then ["Accented characters may cause issues on some systems"] else []
  let invIssues : List String :=
    if invalid ≠ [] then
      ["Filename contains special characters: " ++ charListString invalid]
    else []
  let invRecs : List String :=
    if invalid ≠ [] then
      ["Use only numbers, letters, spaces, and dashes for best compatibility"]
    else []
  let can_rename := lenRename || accented ≠ [] || invalid ≠ []
  let suggested : Option String :=
    if can_rename then
      let safe := sanitizeStem u file_name "audiofile"
      let budget : Int := 100 - (file_ext.length : Int)
      let safe2 : String :=
        if budget < (safe.length : Int) then
          ⟨pySliceTo safe.toList (budget - 3)⟩ ++ "..."
        else safe
      some (safe2 ++ file_ext)
    else none
  { issues := lenIssues ++ invIssues,
    warnings := accWarnings,
    recommendations := lenRecs ++ accRecs ++ invRecs,
    can_rename := can_rename,
    suggested := suggested }

/-- Model of `check_directory_path(dir_path)`: returns the empty result
when path validation is disabled, when the directory name is empty, or for
the root-ish literals; otherwise checks name length and character classes
and, when renaming applies, builds a suggested directory name (fallback
`"folder"`, truncated at 100 characters with a `'...'` marker). -/
def check_directory_path (u : UEnv) (performPathValidation : Bool)
    (dir_path : String) : PathCheck :=
  let empty : PathCheck :=
    { issues := [], warnings := [], recommendations := [],
      can_rename := false, suggested := none }
  if ¬ performPathValidation then empty
  else
    let dir_name := pyBasename dir_path
    if dir_name = "" ∨ dir_path = "/" ∨ dir_path = "//" ∨ dir_path = "\\" then empty
    else
      let lenIssues : List String :=
        if 100 < dir_name.length then ["Directory name exceeds 100 characters"] else []
      let lenRecs : List String :=
        if 100 < dir_name.length
        then ["Consider shortening directory names for better compatibility"] else []
      let lenRename : Bool := 100 < dir_name.length
      let cls := classifyChars u dir_name
      let accented := cls.1
      let invalid := cls.2
      let accWarnings : List String :=
        if accented ≠ [] then
          ["Directory name contains accented characters: " ++ charListString accented]
        else []
      let accRecs : List String :=
        if accented ≠ [] then ["Accented characters may cause issues on some systems"] else []
      let invIssues : List String :=
        if invalid ≠ [] then
          ["Directory name contains special characters: " ++ charListString invalid]
        else []
      let invRecs : List String :=
        if invalid ≠ [] then
          ["Use only numbers, letters, spaces, and dashes for best compatibility"]
        else []
      let can_rename := lenRename || accented ≠ [] || invalid ≠ []
      let suggested : Option String :=
        if can_rename then
          let safe := sanitizeStem u dir_name "folder"
          let safe2 : String :=
            if 100 < safe.length then ⟨safe.toList.take 97⟩ ++ "..." else safe
          some safe2
        else none
      { issues := lenIssues ++ invIssues,
        warnings := accWarnings,
        recommendations := lenRecs ++ accRecs ++ invRecs,
        can_rename := can_rename,
        suggested := suggested }

/-! ## ProfileValidator (`validate_strict_profile`) -/

/-- Outcome of a `mutagen` call in the format-specific pass of the
validator: an exception with message `msg`, or a successful parse. -/
inductive Parse (α : Type)
  | err (msg : String)
  | ok (val : α)
deriving Repr

/-- `MP3(file_path)` info in the validator's MP3 branch. -/
structure MP3VInfo where
  bitrate : Int
  sample_rate : Int
  length : Rat
deriving Repr

/-- `ID3(file_path)` info in the validator's MP3 branch (`id3.version`). -/
structure ID3VInfo where
  vmajor : Int
  vminor : Int
deriving Repr

/-- `FLAC(file_path)` info in the validator's FLAC branch. -/
structure FLACVInfo where
  sample_rate : Int
  bits_per_sample : Int
  channels : Int
deriving Repr

/-- `WAVE(file_path)` info in the validator's WAV branch; `bits = none`
models a missing `bits_per_sample` attribute (the source defaults it to
16 via `getattr`), `hasTags` the truthiness of `audio.tags`. -/
structure WavVInfo where
  sample_rate : Int
  bits : Option Int
  channels : Int
  hasTags : Bool
deriving Repr

/-- External collaborators of the validator's format-specific pass, one
outcome per `mutagen` constructor call on the file being validated.
`wavId3` is the `ID3(file_path)` call of the WAV branch, whose `ok` value
is the truthiness of the resulting tag object. -/
structure VEnv where
  mp3 : Parse MP3VInfo
  id3 : Parse ID3VInfo
  flac : Parse FLACVInfo
  wav : Parse WavVInfo
  wavId3 : Parse Bool

/-- Recommendation keyed by substring match on an integrity issue text
(the `"corrupted"` / `"truncated"` / `"header"` chain). -/
def integrityRec (issue : String) : Option String :=
  let low := pyLower issue
  if strContains low "corrupted" then
    some "This file appears to be corrupted and may need to be re-encoded"
  else if strContains low "truncated" then
    some "This file appears to be truncated and may be missing data"
  else if strContains low "header" then
    some "This file has header issues that may cause playback problems"
  else none

/-- The compatibility report returned by `validate_strict_profile`.
`format_info` records only the keys of the source's `format_info` dict:
its values are never inspected by any checked property. -/
structure VReport where
  issues : List String
  warnings : List String
  recommendations : List String
  format_info : List String
  integrity : IntegrityResult
  path_can_rename : Bool
  suggested_filename : Option String
  dir_can_rename : Bool
  suggested_dirname : Option String
deriving DecidableEq, Repr

/-- The integrity result used by the validator: the real check when the
integrity toggle is enabled, else the initial OK dict. -/
def vIntegrity (env : Env) (performIntegrity : Bool) (file_path : String)
    (content : Bytes) : IntegrityResult :=
  if performIntegrity then
    check_file_integrity env (pyBasename file_path) (pyLower (pySplitext file_path).2) content
  else
    { status := .OK, issues := [], md5 := some "", can_repair := false,
      repair_method := none }

/-- The issue list accumulated by `validate_strict_profile` before its
format-specific pass: resource-file check, path checks, parent-directory
checks, missing-tag checks, field-length checks, and re-emitted integrity
issues, in source order. -/
def vPreIssues (u : UEnv) (env : Env) (performIntegrity performPathValidation : Bool)
    (file_path : String) (content : Bytes) (metadata : Metadata) : List String :=
  (if pyStartsWith (pyBasename file_path) "._" then ["macOS resource file detected"] else [])
    ++ (check_path_issues u performPathValidation file_path).issues
    ++ (if performPathValidation then
          (check_directory_path u performPathValidation (pyDirname file_path)).issues.map
            (fun i => "Parent directory issue: " ++ i)
        else [])
    ++ (if pyStrip metadata.title = "" then ["Missing title tag"] else [])
    ++ (if pyStrip metadata.artist = "" then ["Missing artist tag"] else [])
    ++ (["title", "artist", "album"].filter
          (fun f => 250 < (metadata.getField f).length)).map
        (fun f => pyCapitalize f ++ " tag exceeds 250 characters")
    ++ (if (vIntegrity env performIntegrity file_path content).status ≠ .OK then
          (vIntegrity env performIntegrity file_path content).issues.map
            (fun i => "Integrity issue: " ++ i)
        else [])

/-- The warning list accumulated by `validate_strict_profile` before its
format-specific pass. -/
def vPreWarnings (u : UEnv) (performPathValidation : Bool) (file_path : String) :
    List String :=
  (check_path_issues u performPathValidation file_path).warnings
    ++ (if performPathValidation then
          (check_directory_path u performPathValidation (pyDirname file_path)).warnings.map
            (fun w => "Parent directory warning: " ++ w)
        else [])

/-- The recommendation list accumulated by `validate_strict_profile`
before its format-specific pass. -/
def vPreRecs (u : UEnv) (env : Env) (performIntegrity performPathValidation : Bool)
    (file_path : String) (content : Bytes) (metadata : Metadata) : List String :=
  (if pyStartsWith (pyBasename file_path) "._" then
    ["These hidden resource files are not actual audio files and should be deleted"]
   else [])
    ++ (check_path_issues u performPathValidation file_path).recommendations
    ++ (if performPathValidation then
          (check_directory_path u performPathValidation
            (pyDirname file_path)).recommendations.map
            (fun r => "Parent directory: " ++ r)
        else [])
    ++ (if pyStrip metadata.title = "" then ["Add a title to improve compatibility"] else [])
    ++ (if pyStrip metadata.artist = "" then
          ["Add an artist name to improve compatibility"] else [])
    ++ (["title", "artist", "album"].filter
          (fun f => 250 < (metadata.getField f).length)).map
        (fun f => "Shorten " ++ f ++ " to improve compatibility with older players")
    ++ (if (vIntegrity env performIntegrity file_path content).status ≠ .OK then
          (vIntegrity env performIntegrity file_path content).issues.filterMap integrityRec
        else [])

/-- Model of `validate_strict_profile(file_path, metadata)`.  `content` is
the byte content of the file (read only when the integrity check is
enabled).  The `Except` layer models the single unguarded dict access of
the source: `integrity_status["md5"]` raises `KeyError` when the
integrity result is the AppleDouble short-circuit dict, which lacks the
`"md5"` key; every other exception the format pass can raise is caught by
the source and turned into an issue string. -/
def validate_strict_profile (u : UEnv) (env : Env) (venv : VEnv)
    (performIntegrity performPathValidation : Bool)
    (file_path : String) (content : Bytes) (metadata : Metadata) :
    Except String VReport :=
  let file_ext := pyLower (pySplitext file_path).2
  let pc := check_path_issues u performPathValidation file_path
  let dc := check_directory_path u performPathValidation (pyDirname file_path)
  let path_can_rename :=
    pc.can_rename || (performPathValidation && dc.can_rename && dc.suggested.isSome)
  let integrity := vIntegrity env performIntegrity file_path content
  let md5KeysE : Except String (List String) :=
    if integrity.status ≠ .OK then
      match integrity.md5 with
      | none => .error "KeyError: md5"
      | some m => .ok (if m ≠ "" then ["md5_checksum"] else [])
    else .ok []
  match md5KeysE with
  | .error e => .error e
  | .ok md5Keys =>
    let preIssues := vPreIssues u env performIntegrity performPathValidation
      file_path content metadata
    let preWarnings := vPreWarnings u performPathValidation file_path
    let preRecs := vPreRecs u env performIntegrity performPathValidation
      file_path content metadata
    let mk : List String → List String → List String → List String → VReport :=
      fun is ws rs ks =>
        { issues := is, warnings := ws, recommendations := rs, format_info := ks,
          integrity := integrity,
          path_can_rename := path_can_rename,
          suggested_filename := pc.suggested,
          dir_can_rename := performPathValidation && dc.can_rename,
          suggested_dirname := if performPathValidation then dc.suggested else none }
    if file_ext = ".mp3" then
      match venv.mp3 with
      | .err e => .ok (mk (preIssues ++ ["Error analyzing MP3 file: " ++ e])
          preWarnings preRecs md5Keys)
      | .ok i =>
        let brOdd := i.bitrate < 128000 ∨ 320000 < i.bitrate
        let brWarn :=
          if brOdd then ["Uncommon bitrate: " ++ toString (Int.fdiv i.bitrate 1000) ++ "kbps"]
          else []
        let brRecs :=
          if brOdd then ["Standard compatible bitrates: 128kbps, 192kbps, 256kbps, 320kbps"]
          else []
        match venv.id3 with
        | .err _ =>
          .ok (mk (preIssues ++ ["No ID3 tags found or corrupted tags"])
            (preWarnings ++ brWarn)
            (preRecs ++ brRecs ++ ["Add proper ID3v2.3 tags for maximum compatibility"])
            (md5Keys ++ ["bitrate", "sample_rate", "length"]))
        | .ok v =>
          let v1Warn :=
            if v.vmajor < 2 then ["Using ID3v1 tags which have limited support"] else []
          let v1Recs :=
            if v.vmajor < 2 then ["Upgrade to ID3v2.3 or ID3v2.4 for better compatibility"]
            else []
          .ok (mk preIssues (preWarnings ++ brWarn ++ v1Warn) (preRecs ++ brRecs ++ v1Recs)
            (md5Keys ++ ["bitrate", "sample_rate", "length", "id3_version"]))
    else if file_ext = ".flac" then
      match venv.flac with
      | .err e => .ok (mk (preIssues ++ ["Error analyzing FLAC file: " ++ e])
          preWarnings preRecs md5Keys)
      | .ok i =>
        let srWarn :=
          if 48000 < i.sample_rate then ["High sample rate: " ++ toString i.sample_rate ++ "Hz"]
          else []
        let srRecs :=
          if 48000 < i.sample_rate
          then ["Sample rates above 48kHz may not be supported by all players"] else []
        let bdWarn :=
          if 24 < i.bits_per_sample
          then ["High bit depth: " ++ toString i.bits_per_sample ++ "-bit"] else []
        let bdRecs :=
          if 24 < i.bits_per_sample
          then ["Bit depths above 24-bit may not be supported by all players"] else []
        let chWarn :=
          if 2 < i.channels then ["Multichannel audio: " ++ toString i.channels ++ " channels"]
          else []
        let chRecs :=
          if 2 < i.channels then ["More than 2 channels may not be supported by all players"]
          else []
        .ok (mk preIssues (preWarnings ++ srWarn ++ bdWarn ++ chWarn)
          (preRecs ++ srRecs ++ bdRecs ++ chRecs)
          (md5Keys ++ ["sample_rate", "bits_per_sample", "channels"]))
    else if file_ext = ".wav" then
      match venv.wav with
      | .err e => .ok (mk (preIssues ++ ["Error analyzing WAV file: " ++ e])
          preWarnings
          (preRecs ++ ["The WAV file may be corrupted or using a non-standard format"])
          md5Keys)
      | .ok i =>
        let keptIssues := preIssues.filter
          (fun s => ¬ (s = "Missing title tag" ∨ s = "Missing artist tag"))
        let movedWarnings := (preIssues.filter
          (fun s => s = "Missing title tag" ∨ s = "Missing artist tag")).map
          (fun s => s ++ " (normal for WAV files)")
        let anyMeta := metadata.title ≠ "" ∨ metadata.artist ≠ "" ∨ metadata.album ≠ ""
        let noMetaWarn :=
          if ¬ anyMeta then ["WAV file has no metadata (this is normal for WAV files)"] else []
        let metaRecs :=
          if ¬ anyMeta
          then ["WAV files typically have limited or no metadata support in most players"]
          else ["Some players may not display the metadata in this WAV file"]
        let bits := i.bits.getD 16
        let srOdd := i.sample_rate ≠ 44100 ∧ i.sample_rate ≠ 48000
        let srWarn :=
          if srOdd then ["Uncommon sample rate: " ++ toString i.sample_rate ++ "Hz"] else []
        let srRecs :=
          if srOdd then ["Standard sample rates of 44.1kHz or 48kHz have the best compatibility"]
          else []
        let bdWarn := if 16 < bits then ["High bit depth: " ++ toString bits ++ "-bit"] else []
        let bdRecs :=
          if 16 < bits then ["Bit depths above 16-bit may not be supported by all players"]
          else []
        let chWarn :=
          if 2 < i.channels then ["Multichannel audio: " ++ toString i.channels ++ " channels"]
          else []
        let chRecs :=
          if 2 < i.channels then ["More than 2 channels may not be supported by all players"]
          else []
        let hasInfo : Bool := i.hasTags
        let hasId3 : Bool := match venv.wavId3 with | .ok b => b | .err _ => false
        let id3OnlyWarn :=
          if !hasInfo && hasId3 then ["WAV file using non-standard ID3 tags"] else []
        let id3OnlyRecs :=
          if !hasInfo && hasId3
          then ["Some players may not recognize ID3 tags in WAV files"] else []
        .ok (mk keptIssues
          (preWarnings ++ movedWarnings ++ noMetaWarn ++ srWarn ++ bdWarn ++ chWarn
            ++ id3OnlyWarn)
          (preRecs ++ metaRecs ++ srRecs ++ bdRecs ++ chRecs ++ id3OnlyRecs)
          (md5Keys ++ ["sample_rate", "bits_per_sample", "channels"]
            ++ (if hasInfo then ["has_info_chunks"] else [])
            ++ (if hasId3 then ["has_id3"] else [])
            ++ ["metadata_type"]))
    else
      .ok (mk preIssues preWarnings preRecs md5Keys)

/-- VEnv used to instantiate witness theorems: every `mutagen` call fails. -/
def defaultVEnv : VEnv :=
  { mp3 := .err "boom", id3 := .err "boom", flac := .err "boom",
    wav := .err "boom", wavId3 := .err "boom" }

/-! ## Auto-fix (`_basic_auto_fix`, per-issue metadata update) -/

/-- Set one of the three checked fields (`metadata[field] = value`; only
the fields the profile checks are modelled, the only field names the
generated issues can mention). -/
def Metadata.setField (m : Metadata) (f v : String) : Metadata :=
  if f = "title" then { m with title := v }
  else if f = "artist" then { m with artist := v }
  else if f = "album" then { m with album := v }
  else m

/-- First word of a string, Python `s.split(' ')[0]`. -/
def firstWord (s : String) : String :=
  ⟨s.toList.takeWhile (· ≠ ' ')⟩

/-- Split at the first occurrence of `needle`, Python `s.split(sep, 1)`
restricted to whether a split happened and what came before it. -/
def splitFirst : List Char → List Char → Option (List Char × List Char)
  | hay, needle =>
    if needle.isPrefixOf hay then some ([], hay.drop needle.length)
    else
      match hay with
      | [] => none
      | a :: t =>
        match splitFirst t needle with
        | some r => some (a :: r.1, r.2)
        | none => none

/-- One iteration of the issue-processing loop of `_basic_auto_fix`:
given the display filename and the current metadata, apply the fix the
issue text selects; returns the updated record and whether an update was
made. -/
def applyIssueFix (filename : String) (m : Metadata) (issue : String) :
    Metadata × Bool :=
  if strContains issue "Missing title tag" then
    let stem := (pySplitext filename).1
    (m.setField "title" (pyReplace (pyReplace stem "_" " ") "-" " - "), true)
  else if strContains issue "Missing artist tag" then
    let artist :=
      match splitFirst filename.toList " - ".toList with
      | some r => pyStrip ⟨r.1⟩
      | none => "Unknown Artist"
    (m.setField "artist" artist, true)
  else if strContains issue "tag exceeds" then
    let field := pyLower (firstWord issue)
    if field = "title" ∨ field = "artist" ∨ field = "album" then
      (m.setField field (pyTake (m.getField field) 250), true)
    else (m, false)
  else (m, false)

/-! ## Claims -/

/-- Concrete 20-byte `.wav` content whose first four bytes are not `RIFF`
and whose declared RIFF size (`0xFF` little-endian = 255, expected size
263) differs from the actual size by more than 100 bytes. -/
def c1Content : Bytes := [0, 0, 0, 0] ++ [0xFF, 0, 0, 0] ++ List.replicate 12 1

/-- C1 counterexample: a `.wav` file with an invalid header and a
size-field mismatch beyond the 100-byte tolerance ends with
`can_repair = true` but `status = Warning` (the size check overwrites the
`Error` set by the header check), so `can_repair = true` does not imply
`status = Error`. -/
theorem C1_counterexample :
    (check_file_integrity defaultEnv "a.wav" ".wav" c1Content).can_repair = true ∧
    (check_file_integrity defaultEnv "a.wav" ".wav" c1Content).status = .Warning ∧
    (check_file_integrity defaultEnv "a.wav" ".wav" c1Content).status ≠ .Error := by
  decide

/-- Branch invariant: the MP3 integrity branch never reports
`can_repair = true` without a repair method and a non-OK status. -/
theorem mp3IntegrityCheck_invariant (env : Env) (md5 : String) (content : Bytes)
    (h : (mp3IntegrityCheck env md5 content).can_repair = true) :
    (mp3IntegrityCheck env md5 content).repair_method ≠ none ∧
    (mp3IntegrityCheck env md5 content).status ≠ .OK := by
  revert h
  unfold mp3IntegrityCheck
  dsimp only
  repeat' split <;> simp_all

/-- Branch invariant: the FLAC integrity branch never reports
`can_repair = true` without a repair method and a non-OK status. -/
theorem flacIntegrityCheck_invariant (env : Env) (md5 : String) (content : Bytes)
    (h : (flacIntegrityCheck env md5 content).can_repair = true) :
    (flacIntegrityCheck env md5 content).repair_method ≠ none ∧
    (flacIntegrityCheck env md5 content).status ≠ .OK := by
  revert h
  unfold flacIntegrityCheck
  dsimp only
  repeat' split <;> simp_all

/-- Branch invariant: the WAV integrity branch never reports
`can_repair = true` without a repair method and a non-OK status (the
size-mismatch downgrade produces Warning, never OK). -/
theorem wavIntegrityCheck_invariant (md5 : String) (content : Bytes)
    (h : (wavIntegrityCheck md5 content).can_repair = true) :
    (wavIntegrityCheck md5 content).repair_method ≠ none ∧
    (wavIntegrityCheck md5 content).status ≠ .OK := by
  revert h
  unfold wavIntegrityCheck
  dsimp only
  repeat' split <;> simp_all

/-- C1 (amended): for every file and extension, if the IntegrityResult
returned by check_file_integrity has `can_repair = true` then
`repair_method` is set (non-none) and `status` is not OK — it is Error,
except that the WAV size-mismatch check may later downgrade it to
Warning. -/
theorem C1_can_repair_invariant (env : Env) (basename ext : String) (content : Bytes)
    (h : (check_file_integrity env basename ext content).can_repair = true) :
    (check_file_integrity env basename ext content).repair_method ≠ none ∧
    (check_file_integrity env basename ext content).status ≠ .OK := by
  revert h
  unfold check_file_integrity
  split
  · simp
  · split
    · simp
    · split
      · exact mp3IntegrityCheck_invariant _ _ _
      · split
        · exact flacIntegrityCheck_invariant _ _ _
        · split
          · exact wavIntegrityCheck_invariant _ _
          · split
            · unfold oggIntegrityCheck
              split <;> simp
            · simp

/-- C1 witness: the amended invariant instantiated on the concrete file
of the counterexample. -/
theorem C1_can_repair_invariant_witness :
    (check_file_integrity defaultEnv "a.wav" ".wav" c1Content).can_repair = true ∧
    ((check_file_integrity defaultEnv "a.wav" ".wav" c1Content).repair_method ≠ none ∧
      (check_file_integrity defaultEnv "a.wav" ".wav" c1Content).status ≠ .OK) :=
  ⟨by decide, C1_can_repair_invariant defaultEnv "a.wav" ".wav" c1Content (by decide)⟩

/-- C4 (code bug): with the integrity check enabled, validating an
AppleDouble resource file propagates an exception: the short-circuit
dict returned by `check_file_integrity` for `._`-prefixed names has no
`"md5"` key, and `validate_strict_profile` reads
`integrity_status["md5"]` unguarded, raising `KeyError`. -/
theorem C4_keyerror_on_resource_file :
    validate_strict_profile asciiUEnv defaultEnv defaultVEnv true false
      "/m/._track.mp3" [1, 2] { title := "t", artist := "a", album := "" } =
    .error "KeyError: md5" := rfl

/-- C6: a file whose basename starts with `._` is immediately classified
Error with `can_repair = true` and `repair_method = delete_resource_file`,
and repairing with that result removes the file and leaves no `.bak`
backup behind. -/
theorem C6_resource_file_delete (env : Env) (fenv : FlacEnv) (basename ext : String)
    (content : Bytes) (h : pyStartsWith basename "._" = true) :
    check_file_integrity env basename ext content =
      { status := .Error, issues := ["macOS resource file"], md5 := none,
        can_repair := true, repair_method := some .delete_resource_file } ∧
    (repair_file_integrity env fenv basename ext
        (check_file_integrity env basename ext content)
        { file := some content, bak := none }).1.success = true ∧
    (repair_file_integrity env fenv basename ext
        (check_file_integrity env basename ext content)
        { file := some content, bak := none }).2 =
      { file := none, bak := none } := by
  have hck : check_file_integrity env basename ext content =
      { status := .Error, issues := ["macOS resource file"], md5 := none,
        can_repair := true, repair_method := some .delete_resource_file } := by
    simp [check_file_integrity, h]
  refine ⟨hck, ?_, ?_⟩ <;> rw [hck] <;> simp [repair_file_integrity]

/-- C6 witness: the resource-file classification and delete-repair on the
concrete filename `._track.mp3`. -/
theorem C6_resource_file_delete_witness :
    (pyStartsWith "._track.mp3" "._") = true ∧
    ((repair_file_integrity defaultEnv defaultFlacEnv "._track.mp3" ".mp3"
        (check_file_integrity defaultEnv "._track.mp3" ".mp3" [1, 2, 3])
        { file := some [1, 2, 3], bak := none }).2 =
      { file := none, bak := none }) :=
  ⟨by decide,
    (C6_resource_file_delete defaultEnv defaultFlacEnv "._track.mp3" ".mp3" [1, 2, 3]
      (by decide)).2.2⟩

/-- Stage 3 of the FLAC repair leaves the restored original and its
backup on disk whenever it fails. -/
theorem repairFlacStage3_failure (env : Env) (fenv : FlacEnv) (basename ext : String)
    (orig : Bytes) (h : (repairFlacStage3 env fenv basename ext orig).1 = false) :
    (repairFlacStage3 env fenv basename ext orig).2 =
      { file := some orig, bak := some orig } := by
  unfold repairFlacStage3 at h ⊢
  dsimp only at h ⊢
  repeat' split at h
  all_goals simp_all

/-- Stage 2 of the FLAC repair leaves the restored original and its
backup on disk whenever it fails. -/
theorem repairFlacStage2_failure (env : Env) (fenv : FlacEnv) (basename ext : String)
    (orig : Bytes) (h : (repairFlacStage2 env fenv basename ext orig).1 = false) :
    (repairFlacStage2 env fenv basename ext orig).2 =
      { file := some orig, bak := some orig } := by
  revert h
  unfold repairFlacStage2
  split
  · split
    · simp
    · intro h
      exact repairFlacStage3_failure env fenv basename ext orig h
  · intro h
    exact repairFlacStage3_failure env fenv basename ext orig h

/-- The FLAC repair pipeline, started on a file whose backup has just
been written, leaves the original content and its backup on disk
whenever it fails. -/
theorem repairFlacModel_failure (env : Env) (fenv : FlacEnv) (basename ext : String)
    (orig : Bytes)
    (h : (repairFlacModel env fenv basename ext
      { file := some orig, bak := some orig }).1 = false) :
    (repairFlacModel env fenv basename ext { file := some orig, bak := some orig }).2 =
      { file := some orig, bak := some orig } := by
  revert h
  unfold repairFlacModel
  dsimp only
  split
  · intro _; rfl
  · split
    · split
      · simp
      · intro h
        exact repairFlacStage2_failure env fenv basename ext orig h
    · intro h
      exact repairFlacStage2_failure env fenv basename ext orig h

/-- C2: for every file, integrity result and collaborator behaviour, if
`repair_file_integrity` reports failure then the target file's content
after the call is identical to its content before the call and no `.bak`
backup file remains. -/
theorem C2_repair_failure_restores (env : Env) (fenv : FlacEnv) (basename ext : String)
    (ir : IntegrityResult) (file0 : Option Bytes)
    (h : (repair_file_integrity env fenv basename ext ir
      { file := file0, bak := none }).1.success = false) :
    (repair_file_integrity env fenv basename ext ir { file := file0, bak := none }).2 =
      { file := file0, bak := none } := by
  unfold repair_file_integrity at h ⊢
  dsimp only at h ⊢
  repeat' split at h
  all_goals simp_all [repairFlacModel_failure]

/-- C2 witness: a failing WAV rebuild (file shorter than 44 bytes)
restores the 3-byte original and removes the backup. -/
theorem C2_repair_failure_restores_witness :
    (repair_file_integrity defaultEnv defaultFlacEnv "a.wav" ".wav"
        { status := .Error, issues := [], md5 := some "", can_repair := true,
          repair_method := some .rebuild_wav }
        { file := some [1, 2, 3], bak := none }).1.success = false ∧
    (repair_file_integrity defaultEnv defaultFlacEnv "a.wav" ".wav"
        { status := .Error, issues := [], md5 := some "", can_repair := true,
          repair_method := some .rebuild_wav }
        { file := some [1, 2, 3], bak := none }).2 =
      { file := some [1, 2, 3], bak := none } :=
  ⟨by decide,
    C2_repair_failure_restores defaultEnv defaultFlacEnv "a.wav" ".wav"
      { status := .Error, issues := [], md5 := some "", can_repair := true,
        repair_method := some .rebuild_wav }
      (some [1, 2, 3]) (by decide)⟩

/-- Collapsing runs of a character only removes characters. -/
theorem mem_collapseChar (c a : Char) (l : List Char) (h : a ∈ collapseChar c l) :
    a ∈ l := by
  induction l with
  | nil => simp [collapseChar] at h
  | cons x t ih =>
    cases t with
    | nil => simpa [collapseChar] using h
    | cons y r =>
      rw [collapseChar] at h
      split at h
      · exact .tail _ (ih h)
      · rcases List.mem_cons.mp h with rfl | h2
        · exact .head _
        · exact .tail _ (ih h2)

/-- Stripping characters from both ends only removes characters. -/
theorem mem_stripBoth (set l : List Char) (a : Char) (h : a ∈ stripBoth set l) :
    a ∈ l := by
  unfold stripBoth at h
  rw [List.mem_reverse] at h
  have h2 := (List.dropWhile_sublist _).subset h
  rw [List.mem_reverse] at h2
  exact (List.dropWhile_sublist _).subset h2

/-- Every character of a sanitised stem is allowed, provided the fallback
name is made of allowed characters. -/
theorem sanitizeStem_allowed (u : UEnv) (name fallback : String)
    (hfb : ∀ a ∈ fallback.toList, allowedChar a = true) :
    ∀ a ∈ (sanitizeStem u name fallback).toList, allowedChar a = true := by
  intro a ha
  unfold sanitizeStem at ha
  dsimp only at ha
  have hb : a ∈ (if pyStrip ⟨((u.nfkd name).toList.filter
      (fun c => ¬ u.isMark c ∧ allowedChar c))⟩ = "" then fallback.toList
      else (u.nfkd name).toList.filter (fun c => ¬ u.isMark c ∧ allowedChar c)) :=
    mem_collapseChar _ _ _ (mem_collapseChar _ _ _ (mem_stripBoth _ _ _ ha))
  split at hb
  · exact hfb a hb
  · have h3 := List.mem_filter.mp hb
    have h4 : u.isMark a = false ∧ allowedChar a = true := by simpa using h3.2
    exact h4.2

/-- C7 counterexample: the suggested replacement name re-attaches the
original extension, so for `a_b.mp3` (disallowed `_` in the stem) the
suggestion `ab.mp3` contains `.`, which is outside `[0-9a-zA-Z\- ]`. -/
theorem C7_counterexample :
    (check_path_issues asciiUEnv true "/music/a_b.mp3").suggested = some "ab.mp3" ∧
    ¬ (∀ a ∈ "ab.mp3".toList, allowedChar a = true) := by
  decide

/-- C7 (amended): whenever check_path_issues proposes a replacement name,
that name is the sanitised stem followed by the original extension, where
every character of the stem is in `[0-9a-zA-Z\- ]` except that a
truncated stem ends in the three `.` of the ellipsis marker; the
extension itself is preserved verbatim.  Determinism holds because the
suggestion is a pure function of the filename (and of the Unicode
tables). -/
theorem C7_suggested_shape (u : UEnv) (ppv : Bool) (file_path : String) (s : String)
    (h : (check_path_issues u ppv file_path).suggested = some s) :
    ∃ stem : String,
      s = stem ++ (pySplitext (pyBasename file_path)).2 ∧
      ((∀ a ∈ stem.toList, allowedChar a = true) ∨
        ∃ stem0 : String, stem = stem0 ++ "..." ∧
          ∀ a ∈ stem0.toList, allowedChar a = true) := by
  have hfb : ∀ a ∈ ("audiofile" : String).toList, allowedChar a = true := by decide
  unfold check_path_issues at h
  dsimp only at h
  rw [Option.ite_none_right_eq_some, Option.some_inj] at h
  obtain ⟨-, h⟩ := h
  split at h
  case isTrue htr =>
    refine ⟨_ ++ "...", h.symm, .inr ⟨⟨pySliceTo (sanitizeStem u
      (pySplitext (pyBasename file_path)).1 "audiofile").toList
      ((100 - ((pySplitext (pyBasename file_path)).2.length : Int)) - 3)⟩, rfl, ?_⟩⟩
    intro a ha
    have ha' : a ∈ (sanitizeStem u (pySplitext (pyBasename file_path)).1 "audiofile").toList := by
      unfold pySliceTo at ha
      split at ha
      · exact List.take_subset _ _ ha
      · exact List.take_subset _ _ ha
    exact sanitizeStem_allowed u _ _ hfb a ha'
  case isFalse htr =>
    exact ⟨_, h.symm, .inl (sanitizeStem_allowed u _ _ hfb)⟩

/-- C7 witness: the amended shape theorem instantiated on the concrete
path of the counterexample. -/
theorem C7_suggested_shape_witness :
    (check_path_issues asciiUEnv true "/music/a_b.mp3").suggested = some "ab.mp3" ∧
    (∃ stem : String,
      "ab.mp3" = stem ++ (pySplitext (pyBasename "/music/a_b.mp3")).2 ∧
      ((∀ a ∈ stem.toList, allowedChar a = true) ∨
        ∃ stem0 : String, stem = stem0 ++ "..." ∧
          ∀ a ∈ stem0.toList, allowedChar a = true)) :=
  ⟨by decide, C7_suggested_shape asciiUEnv true "/music/a_b.mp3" "ab.mp3" (by decide)⟩

/-- C10: with the path-validation toggle disabled, check_path_issues
still reports the path-length issue and the filename-length issue (the
latter with can_rename=true), and reports nothing else: the character
classification alone is gated by the toggle. -/
theorem C10_length_checks_ungated (u : UEnv) (file_path : String) :
    (check_path_issues u false file_path).issues =
      (if 250 < file_path.length then ["File path exceeds 250 characters"] else []) ++
      (if 100 < (pyBasename file_path).length then ["Filename exceeds 100 characters"]
       else []) ∧
    (check_path_issues u false file_path).warnings = [] ∧
    (check_path_issues u false file_path).can_rename =
      decide (100 < (pyBasename file_path).length) := by
  refine ⟨?_, ?_, ?_⟩ <;> simp [check_path_issues]

/-- Dispatch: for a non-resource, non-empty `.wav` file the integrity
check is the WAV branch. -/
theorem check_file_integrity_wav (env : Env) (basename : String) (content : Bytes)
    (hres : pyStartsWith basename "._" = false) (hne : content ≠ []) :
    check_file_integrity env basename ".wav" content =
      wavIntegrityCheck (env.md5hex content) content := by
  simp [check_file_integrity, hres, hne]

/-- WAV branch facts for a file whose first four bytes are not `RIFF`:
repairable with `rebuild_wav`, issue recorded, status never OK, and
status Error exactly when the size-field check does not downgrade it. -/
theorem wavIntegrityCheck_bad_header (md5 : String) (content : Bytes)
    (hriff : content.take 4 ≠ bRIFF) :
    (wavIntegrityCheck md5 content).can_repair = true ∧
    (wavIntegrityCheck md5 content).repair_method = some .rebuild_wav ∧
    "Invalid WAV header" ∈ (wavIntegrityCheck md5 content).issues ∧
    (wavIntegrityCheck md5 content).status ≠ .OK ∧
    (((content.drop 4).take 4).length = 4 →
      ((((le32 ((content.drop 4).take 4) + 8 : Nat) : Int) -
        (content.length : Int)).natAbs ≤ 100) →
      (wavIntegrityCheck md5 content).status = .Error) := by
  have hbad : content.take 4 ≠ bRIFF ∨ (content.drop 8).take 4 ≠ bWAVE := .inl hriff
  unfold wavIntegrityCheck
  dsimp only
  split
  case isTrue h4 =>
    split
    case isTrue hgt =>
      exact ⟨by simp [hbad], by simp [hbad], by simp [hbad], by simp,
        fun _ hle => absurd hgt (by omega)⟩
    case isFalse hle =>
      exact ⟨by simp [hbad], by simp [hbad], by simp [hbad], by simp [hbad],
        fun _ _ => by simp [hbad]⟩
  case isFalse h4 =>
    exact ⟨by simp [hbad], by simp [hbad], by simp [hbad], by simp,
      fun hh _ => absurd hh h4⟩

/-- Successful rebuild of a WAV file of at least 44 bytes: the repair
writes the canonical header followed by the payload after byte 44 and
removes the backup. -/
theorem repair_rebuild_wav (env : Env) (fenv : FlacEnv) (basename ext : String)
    (ir : IntegrityResult) (content : Bytes)
    (hcr : ir.can_repair = true) (hm : ir.repair_method = some .rebuild_wav)
    (hlen : 44 ≤ content.length) :
    repair_file_integrity env fenv basename ext ir { file := some content, bak := none } =
      ({ success := true, message := "WAV file structure repaired successfully" },
       { file := some (wavCanonicalHeader content.length ++ content.drop 44),
         bak := none }) := by
  unfold repair_file_integrity
  dsimp only
  rw [hcr, hm]
  simp [repairWav, Nat.not_lt.mpr hlen]

/-- Concrete 28-byte `.wav` content whose first four bytes are not `RIFF`
and whose declared RIFF size (255, expected 263) is more than 100 bytes
away from the actual 28-byte size. -/
def c5Content : Bytes := [9, 9, 9, 9] ++ [0xFF, 0, 0, 0] ++ List.replicate 20 2

/-- C5 counterexample: a `.wav` file whose first four bytes are not
`RIFF` can come back with status Warning, not Error (the size-mismatch
check overwrites the status), and when the file is shorter than 44 bytes
the repair fails and restores the original bytes, so after the repair
call bytes 0–3 still do not equal `RIFF`. -/
theorem C5_counterexample :
    c5Content.take 4 ≠ bRIFF ∧
    (check_file_integrity defaultEnv "b.wav" ".wav" c5Content).status ≠ .Error ∧
    (check_file_integrity defaultEnv "b.wav" ".wav" c5Content).status = .Warning ∧
    (repair_file_integrity defaultEnv defaultFlacEnv "b.wav" ".wav"
        (check_file_integrity defaultEnv "b.wav" ".wav" c5Content)
        { file := some c5Content, bak := none }).1.success = false ∧
    (repair_file_integrity defaultEnv defaultFlacEnv "b.wav" ".wav"
        (check_file_integrity defaultEnv "b.wav" ".wav" c5Content)
        { file := some c5Content, bak := none }).2.file = some c5Content := by
  decide

/-- C5 (amended): for every `.wav` file (not AppleDouble-prefixed,
non-empty) whose first four bytes are not `RIFF`, check_file_integrity
returns can_repair=true and repair_method=rebuild_wav with "Invalid WAV
header" among the issues; the status is Error unless the size-field
check downgrades it to Warning (size field unreadable, or declared size
more than 100 bytes away from the actual size).  If the file is at least
44 bytes long, the repair succeeds and afterwards bytes 0–3 equal `RIFF`
and bytes 8–11 equal `WAVE`. -/
theorem C5_wav_invalid_header (env : Env) (fenv : FlacEnv) (basename : String)
    (content : Bytes)
    (hres : pyStartsWith basename "._" = false)
    (hne : content ≠ [])
    (hriff : content.take 4 ≠ bRIFF) :
    (check_file_integrity env basename ".wav" content).can_repair = true ∧
    (check_file_integrity env basename ".wav" content).repair_method =
      some .rebuild_wav ∧
    "Invalid WAV header" ∈ (check_file_integrity env basename ".wav" content).issues ∧
    (check_file_integrity env basename ".wav" content).status ≠ .OK ∧
    (((content.drop 4).take 4).length = 4 →
      ((((le32 ((content.drop 4).take 4) + 8 : Nat) : Int) -
        (content.length : Int)).natAbs ≤ 100) →
      (check_file_integrity env basename ".wav" content).status = .Error) ∧
    (44 ≤ content.length →
      (repair_file_integrity env fenv basename ".wav"
          (check_file_integrity env basename ".wav" content)
          { file := some content, bak := none }).1.success = true ∧
      ((repair_file_integrity env fenv basename ".wav"
          (check_file_integrity env basename ".wav" content)
          { file := some content, bak := none }).2.file.getD []).take 4 = bRIFF ∧
      (((repair_file_integrity env fenv basename ".wav"
          (check_file_integrity env basename ".wav" content)
          { file := some content, bak := none }).2.file.getD []).drop 8).take 4 =
        bWAVE) := by
  have hc := check_file_integrity_wav env basename content hres hne
  rw [hc]
  have hb := wavIntegrityCheck_bad_header (env.md5hex content) content hriff
  refine ⟨hb.1, hb.2.1, hb.2.2.1, hb.2.2.2.1, hb.2.2.2.2, ?_⟩
  intro hlen
  rw [repair_rebuild_wav env fenv basename ".wav" _ content hb.1 hb.2.1 hlen]
  exact ⟨rfl, rfl, rfl⟩

/-- Concrete 50-byte `.wav` content with a bad header whose declared
size matches the actual size, used to instantiate the C5 theorem. -/
def c5GoodContent : Bytes := [1, 2, 3, 4] ++ [42, 0, 0, 0] ++ List.replicate 42 7

/-- C5 witness: the amended WAV scenario instantiated on a concrete
50-byte file with a bad header: Error status, rebuild_wav repair, and
RIFF/WAVE markers after the repair. -/
theorem C5_wav_invalid_header_witness :
    (pyStartsWith "b.wav" "._" = false ∧ c5GoodContent ≠ [] ∧
      c5GoodContent.take 4 ≠ bRIFF) ∧
    ((check_file_integrity defaultEnv "b.wav" ".wav" c5GoodContent).can_repair = true ∧
      (check_file_integrity defaultEnv "b.wav" ".wav" c5GoodContent).repair_method =
        some .rebuild_wav ∧
      "Invalid WAV header" ∈
        (check_file_integrity defaultEnv "b.wav" ".wav" c5GoodContent).issues ∧
      (check_file_integrity defaultEnv "b.wav" ".wav" c5GoodContent).status ≠ .OK ∧
      (((c5GoodContent.drop 4).take 4).length = 4 →
        ((((le32 ((c5GoodContent.drop 4).take 4) + 8 : Nat) : Int) -
          (c5GoodContent.length : Int)).natAbs ≤ 100) →
        (check_file_integrity defaultEnv "b.wav" ".wav" c5GoodContent).status = .Error) ∧
      (44 ≤ c5GoodContent.length →
        (repair_file_integrity defaultEnv defaultFlacEnv "b.wav" ".wav"
            (check_file_integrity defaultEnv "b.wav" ".wav" c5GoodContent)
            { file := some c5GoodContent, bak := none }).1.success = true ∧
        ((repair_file_integrity defaultEnv defaultFlacEnv "b.wav" ".wav"
            (check_file_integrity defaultEnv "b.wav" ".wav" c5GoodContent)
            { file := some c5GoodContent, bak := none }).2.file.getD []).take 4 =
          bRIFF ∧
        (((repair_file_integrity defaultEnv defaultFlacEnv "b.wav" ".wav"
            (check_file_integrity defaultEnv "b.wav" ".wav" c5GoodContent)
            { file := some c5GoodContent, bak := none }).2.file.getD []).drop 8).take 4 =
          bWAVE)) :=
  ⟨by decide,
    C5_wav_invalid_header defaultEnv defaultFlacEnv "b.wav" c5GoodContent
      (by decide) (by decide) (by decide)⟩

/-- Issues accumulated before the format pass survive into the final
report, except for the two missing-tag strings the WAV branch may move to
warnings. -/
theorem validate_issues_mono (u : UEnv) (env : Env) (venv : VEnv) (pi ppv : Bool)
    (file_path : String) (content : Bytes) (m : Metadata) (r : VReport)
    (hr : validate_strict_profile u env venv pi ppv file_path content m = .ok r)
    (s : String) (hs : s ∈ vPreIssues u env pi ppv file_path content m)
    (hmt : s ≠ "Missing title tag") (hma : s ≠ "Missing artist tag") :
    s ∈ r.issues := by
  unfold validate_strict_profile at hr
  dsimp only at hr
  split at hr
  · exact Except.noConfusion hr
  · split at hr
    · split at hr
      · injection hr with hr; subst hr; exact List.mem_append_left _ hs
      · split at hr
        · injection hr with hr; subst hr; exact List.mem_append_left _ hs
        · injection hr with hr; subst hr; exact hs
    · split at hr
      · split at hr
        · injection hr with hr; subst hr; exact List.mem_append_left _ hs
        · injection hr with hr; subst hr; exact hs
      · split at hr
        · split at hr
          · injection hr with hr; subst hr; exact List.mem_append_left _ hs
          · injection hr with hr; subst hr
            exact List.mem_filter.mpr ⟨hs, by simp [hmt, hma]⟩
        · injection hr with hr; subst hr; exact hs

/-- Shape of the report in the WAV branch with a readable container: the
issues are the pre-format issues with the missing-tag strings filtered
out, and the warnings contain the moved missing-tag strings (suffixed)
as a contiguous segment. -/
theorem validate_wav_ok_shape (u : UEnv) (env : Env) (venv : VEnv) (pi ppv : Bool)
    (file_path : String) (content : Bytes) (m : Metadata) (r : VReport) (i : WavVInfo)
    (hext : pyLower (pySplitext file_path).2 = ".wav")
    (hwav : venv.wav = Parse.ok i)
    (hr : validate_strict_profile u env venv pi ppv file_path content m = .ok r) :
    r.issues = (vPreIssues u env pi ppv file_path content m).filter
      (fun s => ¬ (s = "Missing title tag" ∨ s = "Missing artist tag")) ∧
    ∀ s ∈ ((vPreIssues u env pi ppv file_path content m).filter
        (fun s => s = "Missing title tag" ∨ s = "Missing artist tag")).map
        (fun s => s ++ " (normal for WAV files)"),
      s ∈ r.warnings := by
  unfold validate_strict_profile at hr
  dsimp only at hr
  split at hr
  · exact Except.noConfusion hr
  · rw [hext] at hr
    rw [if_neg (by simp), if_neg (by simp), if_pos rfl, hwav] at hr
    dsimp only at hr
    injection hr with hr
    subst hr
    refine ⟨rfl, fun s hs => ?_⟩
    simp only [List.mem_append]
    tauto

/-- The missing-title issue is among the pre-format issues whenever the
title strips to empty. -/
theorem mem_vPreIssues_title (u : UEnv) (env : Env) (pi ppv : Bool)
    (file_path : String) (content : Bytes) (m : Metadata)
    (h : pyStrip m.title = "") :
    "Missing title tag" ∈ vPreIssues u env pi ppv file_path content m := by
  unfold vPreIssues
  simp [h]

/-- The missing-artist issue is among the pre-format issues whenever the
artist strips to empty. -/
theorem mem_vPreIssues_artist (u : UEnv) (env : Env) (pi ppv : Bool)
    (file_path : String) (content : Bytes) (m : Metadata)
    (h : pyStrip m.artist = "") :
    "Missing artist tag" ∈ vPreIssues u env pi ppv file_path content m := by
  unfold vPreIssues
  simp [h]

/-- The oversized-title issue is among the pre-format issues whenever the
title exceeds 250 characters. -/
theorem mem_vPreIssues_title_long (u : UEnv) (env : Env) (pi ppv : Bool)
    (file_path : String) (content : Bytes) (m : Metadata)
    (h : 250 < m.title.length) :
    "Title tag exceeds 250 characters" ∈ vPreIssues u env pi ppv file_path content m := by
  unfold vPreIssues
  have hm : "Title tag exceeds 250 characters" ∈
      (["title", "artist", "album"].filter
        (fun f => 250 < (m.getField f).length)).map
        (fun f => pyCapitalize f ++ " tag exceeds 250 characters") :=
    List.mem_map.mpr ⟨"title",
      List.mem_filter.mpr ⟨by simp, by simp [Metadata.getField, h]⟩, by decide⟩
  simp only [List.mem_append]
  tauto

/-- The oversized-artist issue is among the pre-format issues whenever
the artist exceeds 250 characters. -/
theorem mem_vPreIssues_artist_long (u : UEnv) (env : Env) (pi ppv : Bool)
    (file_path : String) (content : Bytes) (m : Metadata)
    (h : 250 < m.artist.length) :
    "Artist tag exceeds 250 characters" ∈ vPreIssues u env pi ppv file_path content m := by
  unfold vPreIssues
  have hm : "Artist tag exceeds 250 characters" ∈
      (["title", "artist", "album"].filter
        (fun f => 250 < (m.getField f).length)).map
        (fun f => pyCapitalize f ++ " tag exceeds 250 characters") :=
    List.mem_map.mpr ⟨"artist",
      List.mem_filter.mpr ⟨by simp, by simp [Metadata.getField, h]⟩, by decide⟩
  simp only [List.mem_append]
  tauto

/-- The oversized-album issue is among the pre-format issues whenever the
album exceeds 250 characters. -/
theorem mem_vPreIssues_album_long (u : UEnv) (env : Env) (pi ppv : Bool)
    (file_path : String) (content : Bytes) (m : Metadata)
    (h : 250 < m.album.length) :
    "Album tag exceeds 250 characters" ∈ vPreIssues u env pi ppv file_path content m := by
  unfold vPreIssues
  have hm : "Album tag exceeds 250 characters" ∈
      (["title", "artist", "album"].filter
        (fun f => 250 < (m.getField f).length)).map
        (fun f => pyCapitalize f ++ " tag exceeds 250 characters") :=
    List.mem_map.mpr ⟨"album",
      List.mem_filter.mpr ⟨by simp, by simp [Metadata.getField, h]⟩, by decide⟩
  simp only [List.mem_append]
  tauto

/-- C3 counterexample: for a `.wav` file whose container cannot be read
(the `WAVE()` constructor raises), the downgrade loop never runs, so
with empty title and artist the report keeps "Missing title tag" and
"Missing artist tag" in `issues`. -/
theorem C3_counterexample :
    (validate_strict_profile asciiUEnv defaultEnv defaultVEnv false false "/m/x.wav" []
      { title := "", artist := "", album := "" }).map VReport.issues =
    Except.ok ["Missing title tag", "Missing artist tag",
      "Error analyzing WAV file: boom"] := by
  rfl

/-- C3 (amended): for a `.wav` file whose container is successfully
read, the report never keeps "Missing title tag" or "Missing artist tag"
in `issues`; when title (resp. artist) strips to empty the corresponding
string appears, suffixed " (normal for WAV files)", in `warnings`.  When
the WAV container cannot be read, the missing-tag issues stay in
`issues`. -/
theorem C3_wav_missing_tags_downgraded (u : UEnv) (env : Env) (venv : VEnv)
    (pi ppv : Bool) (file_path : String) (content : Bytes) (m : Metadata)
    (r : VReport) (i : WavVInfo)
    (hext : pyLower (pySplitext file_path).2 = ".wav")
    (hwav : venv.wav = Parse.ok i)
    (hr : validate_strict_profile u env venv pi ppv file_path content m = .ok r) :
    "Missing title tag" ∉ r.issues ∧ "Missing artist tag" ∉ r.issues ∧
    (pyStrip m.title = "" →
      "Missing title tag (normal for WAV files)" ∈ r.warnings) ∧
    (pyStrip m.artist = "" →
      "Missing artist tag (normal for WAV files)" ∈ r.warnings) := by
  obtain ⟨hiss, hw⟩ :=
    validate_wav_ok_shape u env venv pi ppv file_path content m r i hext hwav hr
  refine ⟨?_, ?_, ?_, ?_⟩
  · rw [hiss]
    intro hmem
    have h2 := (List.mem_filter.mp hmem).2
    simp at h2
  · rw [hiss]
    intro hmem
    have h2 := (List.mem_filter.mp hmem).2
    simp at h2
  · intro ht
    exact hw _ (List.mem_map.mpr ⟨"Missing title tag",
      List.mem_filter.mpr
        ⟨mem_vPreIssues_title u env pi ppv file_path content m ht, by decide⟩,
      by decide⟩)
  · intro ha
    exact hw _ (List.mem_map.mpr ⟨"Missing artist tag",
      List.mem_filter.mpr
        ⟨mem_vPreIssues_artist u env pi ppv file_path content m ha, by decide⟩,
      by decide⟩)

/-- WAV info record used to instantiate the C3 witness. -/
def c3WavInfo : WavVInfo :=
  { sample_rate := 44100, bits := some 16, channels := 2, hasTags := false }

/-- Validator environment for the C3 witness: the WAV container parses,
every other library call fails. -/
def c3VEnv : VEnv :=
  { mp3 := Parse.err "boom", id3 := Parse.err "boom", flac := Parse.err "boom",
    wav := Parse.ok c3WavInfo, wavId3 := Parse.err "boom" }

/-- The report produced on the C3 witness input. -/
def c3Report : VReport :=
  { issues := [],
    warnings := ["Missing title tag (normal for WAV files)",
      "Missing artist tag (normal for WAV files)",
      "WAV file has no metadata (this is normal for WAV files)"],
    recommendations := ["Add a title to improve compatibility",
      "Add an artist name to improve compatibility",
      "WAV files typically have limited or no metadata support in most players"],
    format_info := ["sample_rate", "bits_per_sample", "channels", "metadata_type"],
    integrity := { status := .OK, issues := [], md5 := some "", can_repair := false,
                   repair_method := none },
    path_can_rename := false, suggested_filename := none,
    dir_can_rename := false, suggested_dirname := none }

/-- C3 witness: a readable `.wav` file with empty title and artist keeps
both missing-tag strings out of `issues` and shows them, suffixed, in
`warnings`. -/
theorem C3_wav_missing_tags_downgraded_witness :
    (pyLower (pySplitext "/m/x.wav").2 = ".wav" ∧
      c3VEnv.wav = Parse.ok c3WavInfo ∧
      validate_strict_profile asciiUEnv defaultEnv c3VEnv false false "/m/x.wav" []
        { title := "", artist := "", album := "" } = .ok c3Report) ∧
    ("Missing title tag" ∉ c3Report.issues ∧
      "Missing artist tag" ∉ c3Report.issues ∧
      (pyStrip ("" : String) = "" →
        "Missing title tag (normal for WAV files)" ∈ c3Report.warnings) ∧
      (pyStrip ("" : String) = "" →
        "Missing artist tag (normal for WAV files)" ∈ c3Report.warnings)) :=
  ⟨⟨by decide, rfl, by rfl⟩,
    C3_wav_missing_tags_downgraded asciiUEnv defaultEnv c3VEnv false false "/m/x.wav" []
      { title := "", artist := "", album := "" } c3Report c3WavInfo
      (by decide) rfl (by rfl)⟩

/-- C8: whenever title, artist, or album exceeds 250 characters, the
report contains the issue "<Field> tag exceeds 250 characters" with the
field name capitalised, and the auto-fix for that issue trims the field
to exactly its first 250 characters. -/
theorem C8_oversized_tags (u : UEnv) (env : Env) (venv : VEnv) (pi ppv : Bool)
    (file_path : String) (content : Bytes) (m : Metadata) (r : VReport) (fn : String)
    (hr : validate_strict_profile u env venv pi ppv file_path content m = .ok r) :
    (250 < m.title.length → "Title tag exceeds 250 characters" ∈ r.issues) ∧
    (250 < m.artist.length → "Artist tag exceeds 250 characters" ∈ r.issues) ∧
    (250 < m.album.length → "Album tag exceeds 250 characters" ∈ r.issues) ∧
    (applyIssueFix fn m "Title tag exceeds 250 characters").1 =
      { m with title := pyTake m.title 250 } ∧
    (applyIssueFix fn m "Artist tag exceeds 250 characters").1 =
      { m with artist := pyTake m.artist 250 } ∧
    (applyIssueFix fn m "Album tag exceeds 250 characters").1 =
      { m with album := pyTake m.album 250 } := by
  refine ⟨fun h => validate_issues_mono u env venv pi ppv file_path content m r hr _
      (mem_vPreIssues_title_long u env pi ppv file_path content m h)
      (by decide) (by decide),
    fun h => validate_issues_mono u env venv pi ppv file_path content m r hr _
      (mem_vPreIssues_artist_long u env pi ppv file_path content m h)
      (by decide) (by decide),
    fun h => validate_issues_mono u env venv pi ppv file_path content m r hr _
      (mem_vPreIssues_album_long u env pi ppv file_path content m h)
      (by decide) (by decide),
    ?_, ?_, ?_⟩
  · simp [applyIssueFix, Metadata.setField, Metadata.getField,
      (by decide : strContains "Title tag exceeds 250 characters" "Missing title tag" = false),
      (by decide : strContains "Title tag exceeds 250 characters" "Missing artist tag" = false),
      (by decide : strContains "Title tag exceeds 250 characters" "tag exceeds" = true),
      (by decide : pyLower (firstWord "Title tag exceeds 250 characters") = "title")]
  · simp [applyIssueFix, Metadata.setField, Metadata.getField,
      (by decide : strContains "Artist tag exceeds 250 characters" "Missing title tag" = false),
      (by decide : strContains "Artist tag exceeds 250 characters" "Missing artist tag" = false),
      (by decide : strContains "Artist tag exceeds 250 characters" "tag exceeds" = true),
      (by decide : pyLower (firstWord "Artist tag exceeds 250 characters") = "artist")]
  · simp [applyIssueFix, Metadata.setField, Metadata.getField,
      (by decide : strContains "Album tag exceeds 250 characters" "Missing title tag" = false),
      (by decide : strContains "Album tag exceeds 250 characters" "Missing artist tag" = false),
      (by decide : strContains "Album tag exceeds 250 characters" "tag exceeds" = true),
      (by decide : pyLower (firstWord "Album tag exceeds 250 characters") = "album")]

/-- Metadata record with a 251-character title, used to instantiate the
C8 witness. -/
def c8Meta : Metadata :=
  { title := ⟨List.replicate 251 'x'⟩, artist := "a", album := "b" }

/-- The report produced on the C8 witness input. -/
def c8Report : VReport :=
  { issues := ["Title tag exceeds 250 characters"],
    warnings := [],
    recommendations := ["Shorten title to improve compatibility with older players"],
    format_info := [],
    integrity := { status := .OK, issues := [], md5 := some "", can_repair := false,
                   repair_method := none },
    path_can_rename := false, suggested_filename := none,
    dir_can_rename := false, suggested_dirname := none }

set_option maxRecDepth 10000 in
/-- C8 witness: a 251-character title yields the capitalised oversize
issue and the auto-fix trims the title to its first 250 characters. -/
theorem C8_oversized_tags_witness :
    (validate_strict_profile asciiUEnv defaultEnv defaultVEnv false false "/m/t.dat" []
        c8Meta = .ok c8Report ∧ 250 < c8Meta.title.length) ∧
    ("Title tag exceeds 250 characters" ∈ c8Report.issues ∧
      (applyIssueFix "t.dat" c8Meta "Title tag exceeds 250 characters").1 =
        { c8Meta with title := pyTake c8Meta.title 250 }) :=
  have H := C8_oversized_tags asciiUEnv defaultEnv defaultVEnv false false "/m/t.dat" []
    c8Meta c8Report "t.dat" (by rfl)
  ⟨⟨by rfl, by decide⟩, H.1 (by decide), H.2.2.2.1⟩

/-- C9: a zero-byte file whose basename is not AppleDouble-prefixed is
immediately classified Error with exactly the issue list
`["Zero-byte file detected"]` and `can_repair = false`, with no
format-specific check running. -/
theorem C9_zero_byte_file (env : Env) (basename ext : String)
    (h : pyStartsWith basename "._" = false) :
    check_file_integrity env basename ext [] =
      { status := .Error, issues := ["Zero-byte file detected"],
        md5 := some (env.md5hex []), can_repair := false, repair_method := none } := by
  simp [check_file_integrity, h]

/-- C9 witness: the zero-byte classification on a concrete empty `.flac`
file. -/
theorem C9_zero_byte_file_witness :
    (pyStartsWith "empty.flac" "._") = false ∧
    check_file_integrity defaultEnv "empty.flac" ".flac" [] =
      { status := .Error, issues := ["Zero-byte file detected"],
        md5 := some "", can_repair := false, repair_method := none } :=
  ⟨by decide, C9_zero_byte_file defaultEnv "empty.flac" ".flac" (by decide)⟩

end AudioMetaEditor
